import Mathlib

/-!
Verification of the download-with-progress routine of `terabox.py`
(`download_video`, lines 85-169), shallowly embedded in Lean.

The embedding models the observable behaviour of one call to
`download_video`:
  * the resolution phase (API status check, JSON validation, the
    `resolutions["Fast Download"]` and `title` lookups),
  * the streaming phase (the `content-length` branch, the 4096-byte
    chunk loop with its 7% progress cadence, the division-by-zero
    guard on throughput, and the swallowed progress-delivery errors),
  * the error paths (the two `except` handlers that edit the status
    message and re-raise).
Network inputs (API payload, chunk stream, per-chunk clock readings,
success/failure of each `bot.edit_message_text` call) are explicit
parameters; percentages and speeds are rationals.
-/

namespace Terabox

/-- One chunk as consumed by `video_response.iter_content(chunk_size=4096)`:
its byte length, whether the `bot.edit_message_text` progress edit would
succeed at that point, and the value of `time() - start_time` observed
right after the chunk is written. -/
structure Chunk where
  size : ℕ
  deliveryOk : Bool
  elapsed : ℚ
  deriving Repr, DecidableEq

/-- A progress event: one execution of the body of
`if percentage - last_percentage_update >= 7:` (lines 141-156).
`delivered` records whether `bot.edit_message_text` succeeded
(`true`) or raised and was swallowed by the inner `except` (`false`). -/
structure ProgressEvent where
  percentage : ℚ
  speed : ℚ
  delivered : Bool
  deriving Repr, DecidableEq

/-- The mutable state of the chunk loop (lines 128-156):
`downloaded_length`, `last_percentage_update`, and the trace of
progress events attempted so far. -/
structure LoopState where
  downloadedLength : ℕ
  lastPercentageUpdate : ℚ
  events : List ProgressEvent
  deriving Repr, DecidableEq

/-- Line 137: `percentage = 100 * downloaded_length / total_length`. -/
def percentageOf (totalLength downloadedLength : ℕ) : ℚ :=
  100 * (downloadedLength : ℚ) / (totalLength : ℚ)

/-- Line 138: `speed = downloaded_length / elapsed_time if elapsed_time > 0 else 0`. -/
def computeSpeed (downloadedLength : ℕ) (elapsedTime : ℚ) : ℚ :=
  if 0 < elapsedTime then (downloadedLength : ℚ) / elapsedTime else 0

/-- The progress event attempted for one chunk, if any: lines 141-153.
The attempt happens exactly when
`percentage - last_percentage_update >= 7`; the event carries the
current percentage, the guarded speed, and the delivery outcome. -/
def chunkEvent (totalLength : ℕ) (st : LoopState) (c : Chunk) : Option ProgressEvent :=
  let downloaded := st.downloadedLength + c.size
  let pct := percentageOf totalLength downloaded
  if 7 ≤ pct - st.lastPercentageUpdate then
    some ⟨pct, computeSpeed downloaded c.elapsed, c.deliveryOk⟩
  else
    none

/-- One iteration of the `for chunk in video_response.iter_content(...)` loop
(lines 132-156): accumulate `downloaded_length`, write the chunk, and,
when the cadence condition fires, attempt the progress edit;
`last_percentage_update = percentage` (line 154) runs only after a
successful `bot.edit_message_text`, i.e. only for delivered events. -/
def stepChunk (totalLength : ℕ) (st : LoopState) (c : Chunk) : LoopState :=
  let downloaded := st.downloadedLength + c.size
  match chunkEvent totalLength st c with
  | some e =>
      if e.delivered then
        ⟨downloaded, e.percentage, st.events ++ [e]⟩
      else
        ⟨downloaded, st.lastPercentageUpdate, st.events ++ [e]⟩
  | none => ⟨downloaded, st.lastPercentageUpdate, st.events⟩

/-- The loop start: `downloaded_length = 0`, `last_percentage_update = 0`
(lines 128-130), no events yet. -/
def initState : LoopState := ⟨0, 0, []⟩

/-- The whole chunk loop over the received stream. -/
def runChunks (totalLength : ℕ) (st : LoopState) (chunks : List Chunk) : LoopState :=
  chunks.foldl (stepChunk totalLength) st

/-- The percentage computed at each chunk of the stream (line 137),
whether or not it is emitted. -/
def computedPercents (totalLength : ℕ) (chunks : List Chunk) : List ℚ :=
  (List.range chunks.length).map fun i =>
    percentageOf totalLength (((chunks.take (i + 1)).map Chunk.size).sum)

/-- First element of `data['response']` as the code reads it:
`['resolutions']` (line 107) and `['title']` (line 111) may each be
missing, which raises `KeyError`. `resolutions` is the JSON object,
modelled as an association list. -/
structure ApiItem where
  title : Option String
  resolutions : Option (List (String × String))

/-- The resolver response (lines 89-104): HTTP status, and the decoded
JSON `response` array (`none` models invalid JSON or a payload in which
`response` is missing/falsy). -/
structure ApiResponse where
  statusCode : ℕ
  response : Option (List ApiItem)

/-- The streaming GET response (lines 116-132): HTTP status, the
`content-length` header, `len(video_response.content)` for the
buffering branch, the chunk stream actually received, and whether
`iter_content` raises a network error after those chunks. -/
structure VideoResponse where
  statusCode : ℕ
  contentLength : Option ℕ
  contentLen : ℕ
  chunks : List Chunk
  midStreamError : Bool

/-- Line 108: `resolutions['Fast Download']`. -/
def fastDownloadLookup (resolutions : List (String × String)) : Option String :=
  resolutions.lookup "Fast Download"

/-- State of the destination file when `download_video` returns or raises:
`open(video_path, 'wb')` (line 115) creates it; nothing in the function
ever deletes it. -/
inductive FileState where
  | absent
  | written (bytes : ℕ)
  deriving Repr, DecidableEq

/-- How one call to `download_video` ends: an exception raised before the
file is opened (resolution phase, lines 89-112), an exception raised
after it is opened (transfer phase, lines 115-156), or the normal
return `video_path, video_title, total_length` (line 159). -/
inductive DVOutcome where
  | resolutionError
  | transferError
  | success (videoTitle : String) (totalLength : ℕ)
  deriving Repr, DecidableEq

/-- Everything observable about one call to `download_video`: how it
ended, the destination file left on disk, the progress events attempted,
and whether the function itself edited the status message with an error
text (the `bot.edit_message_text` calls in the two `except` handlers,
lines 163 and 168, which run before the re-`raise`). -/
structure DVRun where
  outcome : DVOutcome
  file : FileState
  events : List ProgressEvent
  userNotifiedOnError : Bool
  deriving Repr, DecidableEq

/-- A run that raises before `open(video_path, 'wb')`: the generic
`except` handler edits the status message (line 168) and re-raises. -/
def resolutionFailure : DVRun := ⟨.resolutionError, .absent, [], true⟩

/-- `download_video` (lines 85-169), as a function of the two network
responses. Mirrors the source line by line: status check (95), JSON
check (98-101), `response` check (104), `['resolutions']` then
`['Fast Download']` (107-108), `['title']` (111), file open (115),
video status check (119), `content-length` branch (122-127), chunk loop
(132-156), return (159); every raised exception first passes through an
`except` handler that edits the status message (161-169). -/
def download_video (api : ApiResponse) (video : VideoResponse) : DVRun :=
  if api.statusCode ≠ 200 then resolutionFailure
  else
    match api.response with
    | none => resolutionFailure
    | some [] => resolutionFailure
    | some (item :: _) =>
      match item.resolutions with
      | none => resolutionFailure
      | some res =>
        match fastDownloadLookup res with
        | none => resolutionFailure
        | some _ =>
          match item.title with
          | none => resolutionFailure
          | some title =>
            -- `open(video_path, 'wb')`: the file now exists, truncated.
            if video.statusCode ≠ 200 then
              ⟨.transferError, .written 0, [], true⟩
            else
              match video.contentLength with
              | none =>
                  -- lines 124-125: buffer the whole body, write once.
                  ⟨.success title video.contentLen, .written video.contentLen, [], false⟩
              | some totalLength =>
                  let final := runChunks totalLength initState video.chunks
                  if video.midStreamError then
                    ⟨.transferError, .written final.downloadedLength, final.events, true⟩
                  else
                    ⟨.success title totalLength, .written final.downloadedLength,
                      final.events, false⟩

/-- The percentage carried by the most recent successfully delivered
progress event of a trace, or 0 if none was delivered yet: the value the
code keeps in `last_percentage_update` (lines 130 and 154). -/
def lastDeliveredPercent (events : List ProgressEvent) : ℚ :=
  match (events.filter fun e => e.delivered).getLast? with
  | some e => e.percentage
  | none => 0

/-! ### Basic lemmas about the chunk loop -/

lemma chunkEvent_isSome_iff (totalLength : ℕ) (st : LoopState) (c : Chunk) :
    (chunkEvent totalLength st c).isSome ↔
      7 ≤ percentageOf totalLength (st.downloadedLength + c.size) - st.lastPercentageUpdate := by
  simp only [chunkEvent]
  split <;> simp_all

lemma chunkEvent_eq_some {totalLength : ℕ} {st : LoopState} {c : Chunk} {e : ProgressEvent}
    (h : chunkEvent totalLength st c = some e) :
    e.percentage = percentageOf totalLength (st.downloadedLength + c.size) ∧
      e.delivered = c.deliveryOk ∧
      7 ≤ percentageOf totalLength (st.downloadedLength + c.size) - st.lastPercentageUpdate := by
  simp only [chunkEvent] at h
  split at h
  · cases h
    exact ⟨rfl, rfl, by assumption⟩
  · cases h

lemma stepChunk_downloaded (totalLength : ℕ) (st : LoopState) (c : Chunk) :
    (stepChunk totalLength st c).downloadedLength = st.downloadedLength + c.size := by
  cases h : chunkEvent totalLength st c with
  | none => simp [stepChunk, h]
  | some e =>
      by_cases hd : e.delivered <;> simp [stepChunk, h, hd]

lemma stepChunk_events (totalLength : ℕ) (st : LoopState) (c : Chunk) :
    (stepChunk totalLength st c).events = st.events ++ (chunkEvent totalLength st c).toList := by
  cases h : chunkEvent totalLength st c with
  | none => simp [stepChunk, h]
  | some e =>
      by_cases hd : e.delivered <;> simp [stepChunk, h, hd]

lemma stepChunk_watermark_of_failed (totalLength : ℕ) (st : LoopState) (c : Chunk)
    (h : c.deliveryOk = false) :
    (stepChunk totalLength st c).lastPercentageUpdate = st.lastPercentageUpdate := by
  cases he : chunkEvent totalLength st c with
  | none => simp [stepChunk, he]
  | some e =>
      have hd : e.delivered = false := (chunkEvent_eq_some he).2.1.trans h
      simp [stepChunk, he, hd]

lemma stepChunk_watermark_of_delivered {totalLength : ℕ} {st : LoopState} {c : Chunk}
    {e : ProgressEvent} (he : chunkEvent totalLength st c = some e) (hd : e.delivered = true) :
    (stepChunk totalLength st c).lastPercentageUpdate = e.percentage := by
  simp [stepChunk, he, hd]

lemma runChunks_nil (totalLength : ℕ) (st : LoopState) :
    runChunks totalLength st [] = st := rfl

lemma runChunks_cons (totalLength : ℕ) (st : LoopState) (c : Chunk) (cs : List Chunk) :
    runChunks totalLength st (c :: cs) = runChunks totalLength (stepChunk totalLength st c) cs :=
  rfl

lemma runChunks_downloaded (totalLength : ℕ) (st : LoopState) (chunks : List Chunk) :
    (runChunks totalLength st chunks).downloadedLength =
      st.downloadedLength + (chunks.map Chunk.size).sum := by
  induction chunks generalizing st with
  | nil => simp [runChunks_nil]
  | cons c cs ih =>
      rw [runChunks_cons, ih, stepChunk_downloaded]
      simp [Nat.add_assoc]

lemma percentageOf_mono (totalLength : ℕ) {d₁ d₂ : ℕ} (h : d₁ ≤ d₂) :
    percentageOf totalLength d₁ ≤ percentageOf totalLength d₂ := by
  unfold percentageOf
  rcases Nat.eq_zero_or_pos totalLength with ht | ht
  · simp [ht]
  · have htq : (0 : ℚ) < (totalLength : ℚ) := by exact_mod_cast ht
    have hd : (d₁ : ℚ) ≤ (d₂ : ℚ) := by exact_mod_cast h
    have h2 : (100 : ℚ) * d₁ ≤ 100 * d₂ := by nlinarith
    exact div_le_div_of_nonneg_right h2 htq.le

lemma sum_take_le_sum_take_succ (L : List ℕ) (i : ℕ) :
    (L.take (i + 1)).sum ≤ (L.take (i + 2)).sum := by
  rcases lt_or_ge (i + 1) L.length with h | h
  · rw [List.sum_take_succ L (i + 1) h]
    exact Nat.le_add_right _ _
  · rw [List.take_of_length_le h, List.take_of_length_le (h.trans (Nat.le_succ _))]

lemma computedPercents_chain (totalLength : ℕ) (chunks : List Chunk) :
    List.Chain' (· ≤ ·) (computedPercents totalLength chunks) := by
  unfold computedPercents
  rw [List.chain'_map]
  cases hn : chunks.length with
  | zero => simp
  | succ n =>
      rw [List.chain'_range_succ]
      intro m _
      have hsum := sum_take_le_sum_take_succ (chunks.map Chunk.size) m
      apply percentageOf_mono totalLength
      simpa [List.map_take] using hsum

lemma runChunks_events_chain (totalLength : ℕ) (chunks : List Chunk) (st : LoopState)
    (hch : List.Chain' (· ≤ ·) (st.events.map ProgressEvent.percentage))
    (hub : ∀ e ∈ st.events, e.percentage ≤ percentageOf totalLength st.downloadedLength) :
    List.Chain' (· ≤ ·)
      ((runChunks totalLength st chunks).events.map ProgressEvent.percentage) := by
  induction chunks generalizing st with
  | nil => simpa [runChunks_nil] using hch
  | cons c cs ih =>
      rw [runChunks_cons]
      have hstep : percentageOf totalLength st.downloadedLength ≤
          percentageOf totalLength (st.downloadedLength + c.size) :=
        percentageOf_mono totalLength (Nat.le_add_right _ _)
      apply ih
      · rw [stepChunk_events]
        cases he : chunkEvent totalLength st c with
        | none => simpa using hch
        | some e =>
            rw [List.map_append]
            refine List.Chain'.append hch (by simp) ?_
            intro x hx y hy
            simp only [Option.toList_some, List.map_cons, List.map_nil, List.head?_cons,
              Option.mem_def, Option.some.injEq] at hy
            rcases List.mem_getLast?_eq_getLast hx with ⟨hne, hxe⟩
            have hxmem : x ∈ st.events.map ProgressEvent.percentage := by
              rw [hxe]; exact List.getLast_mem hne
            rcases List.mem_map.1 hxmem with ⟨e', he', hpe⟩
            have : x ≤ percentageOf totalLength (st.downloadedLength + c.size) :=
              le_trans (hpe ▸ hub e' he') hstep
            rw [← hy, (chunkEvent_eq_some he).1]
            exact this
      · intro e hmem
        rw [stepChunk_events] at hmem
        rw [stepChunk_downloaded]
        rcases List.mem_append.1 hmem with hmem | hmem
        · exact (hub e hmem).trans hstep
        · cases he : chunkEvent totalLength st c with
          | none => rw [he] at hmem; cases hmem
          | some e' =>
              rw [he] at hmem
              simp only [Option.toList_some, List.mem_singleton] at hmem
              subst hmem
              rw [(chunkEvent_eq_some he).1]

lemma runChunks_watermark_eq (totalLength : ℕ) (chunks : List Chunk) (st : LoopState)
    (h : st.lastPercentageUpdate = lastDeliveredPercent st.events) :
    (runChunks totalLength st chunks).lastPercentageUpdate =
      lastDeliveredPercent (runChunks totalLength st chunks).events := by
  induction chunks generalizing st with
  | nil => simpa [runChunks_nil] using h
  | cons c cs ih =>
      rw [runChunks_cons]
      apply ih
      rw [stepChunk_events]
      cases he : chunkEvent totalLength st c with
      | none => simpa [stepChunk, he] using h
      | some e =>
          by_cases hd : e.delivered
          · rw [stepChunk_watermark_of_delivered he hd]
            unfold lastDeliveredPercent
            rw [List.filter_append]
            simp [hd]
          · have hfail : c.deliveryOk = false := by
              rw [← (chunkEvent_eq_some he).2.1]
              exact Bool.not_eq_true _ ▸ hd
            rw [stepChunk_watermark_of_failed totalLength st c hfail]
            unfold lastDeliveredPercent
            rw [List.filter_append]
            simp only [Option.toList_some]
            rw [List.filter_cons_of_neg (by simpa using hd)]
            simpa [lastDeliveredPercent] using h

/-! ### Unfolding lemmas for `download_video` -/

lemma download_video_stream (api : ApiResponse) (video : VideoResponse)
    (item : ApiItem) (rest : List ApiItem) (res : List (String × String))
    (link title : String) (N : ℕ)
    (h1 : api.statusCode = 200) (h2 : api.response = some (item :: rest))
    (h3 : item.resolutions = some res) (h4 : fastDownloadLookup res = some link)
    (h5 : item.title = some title) (h6 : video.statusCode = 200)
    (h7 : video.contentLength = some N) :
    download_video api video =
      if video.midStreamError then
        ⟨.transferError, .written (runChunks N initState video.chunks).downloadedLength,
          (runChunks N initState video.chunks).events, true⟩
      else
        ⟨.success title N, .written (runChunks N initState video.chunks).downloadedLength,
          (runChunks N initState video.chunks).events, false⟩ := by
  simp [download_video, h1, h2, h3, h4, h5, h6, h7]

lemma download_video_buffer (api : ApiResponse) (video : VideoResponse)
    (item : ApiItem) (rest : List ApiItem) (res : List (String × String))
    (link title : String)
    (h1 : api.statusCode = 200) (h2 : api.response = some (item :: rest))
    (h3 : item.resolutions = some res) (h4 : fastDownloadLookup res = some link)
    (h5 : item.title = some title) (h6 : video.statusCode = 200)
    (h7 : video.contentLength = none) :
    download_video api video =
      ⟨.success title video.contentLen, .written video.contentLen, [], false⟩ := by
  simp [download_video, h1, h2, h3, h4, h5, h6, h7]

/-! ### Claims -/

/-- C1, counterexample: a run that completes without error with declared
content-length 10 but a received stream of only 5 bytes returns
`total_length = 10` (the declared value, line 159) while only 5 bytes
were written to the file, so "totalBytes equals the number of bytes
actually written" fails as a universal statement. -/
theorem c1_counterexample :
    download_video ⟨200, some [⟨some "t", some [("Fast Download", "u")]⟩]⟩
        ⟨200, some 10, 0, [⟨5, true, 1⟩], false⟩ =
      ⟨.success "t" 10, .written 5, [⟨50, 5, true⟩], false⟩ ∧ (10 : ℕ) ≠ 5 := by
  norm_num [download_video, fastDownloadLookup, List.lookup, runChunks, stepChunk,
    chunkEvent, percentageOf, computeSpeed, initState]

/-- C1, amended: for every transfer that completes without a network error
and has a declared content-length N — whatever the received chunk stream —
the returned totalBytes equals the DECLARED content-length N, while the
file holds exactly the bytes that arrived; in particular, when the
received chunks sum to the declared total N, totalBytes equals N, which
is exactly the number of bytes written to the destination file. -/
theorem c1_totalBytes_declared (api : ApiResponse) (video : VideoResponse)
    (item : ApiItem) (rest : List ApiItem) (res : List (String × String))
    (link title : String) (N : ℕ)
    (h1 : api.statusCode = 200) (h2 : api.response = some (item :: rest))
    (h3 : item.resolutions = some res) (h4 : fastDownloadLookup res = some link)
    (h5 : item.title = some title) (h6 : video.statusCode = 200)
    (h7 : video.contentLength = some N) (h8 : video.midStreamError = false) :
    (download_video api video).outcome = .success title N ∧
      (download_video api video).file = .written ((video.chunks.map Chunk.size).sum) ∧
      ((video.chunks.map Chunk.size).sum = N →
        (download_video api video).file = .written N) := by
  rw [download_video_stream api video item rest res link title N h1 h2 h3 h4 h5 h6 h7, h8]
  refine ⟨by simp, by simp [runChunks_downloaded, initState], ?_⟩
  intro h9
  simp [runChunks_downloaded, initState, h9]

/-- Witness for C1: a two-chunk stream of 4 + 6 bytes against a declared
total of 10 yields a successful run with totalBytes 10 and 10 bytes on
disk. -/
theorem c1_totalBytes_declared_witness :
    (download_video ⟨200, some [⟨some "t", some [("Fast Download", "u")]⟩]⟩
        ⟨200, some 10, 0, [⟨4, true, 1⟩, ⟨6, true, 2⟩], false⟩).outcome = .success "t" 10 ∧
    (download_video ⟨200, some [⟨some "t", some [("Fast Download", "u")]⟩]⟩
        ⟨200, some 10, 0, [⟨4, true, 1⟩, ⟨6, true, 2⟩], false⟩).file = .written 10 := by
  have h := c1_totalBytes_declared
    ⟨200, some [⟨some "t", some [("Fast Download", "u")]⟩]⟩
    ⟨200, some 10, 0, [⟨4, true, 1⟩, ⟨6, true, 2⟩], false⟩
    ⟨some "t", some [("Fast Download", "u")]⟩ [] [("Fast Download", "u")] "u" "t" 10
    rfl rfl rfl (by decide) rfl rfl rfl rfl
  exact ⟨h.1, h.2.2 (by decide)⟩

/-- C3: when the server reports no content-length (lines 122-125), the
whole body is buffered and written in one shot, the single result carries
totalBytes equal to the full body length, and no progress events are
attempted. -/
theorem c3_degraded_buffering (api : ApiResponse) (video : VideoResponse)
    (item : ApiItem) (rest : List ApiItem) (res : List (String × String))
    (link title : String)
    (h1 : api.statusCode = 200) (h2 : api.response = some (item :: rest))
    (h3 : item.resolutions = some res) (h4 : fastDownloadLookup res = some link)
    (h5 : item.title = some title) (h6 : video.statusCode = 200)
    (h7 : video.contentLength = none) :
    (download_video api video).outcome = .success title video.contentLen ∧
      (download_video api video).file = .written video.contentLen ∧
      (download_video api video).events = [] := by
  rw [download_video_buffer api video item rest res link title h1 h2 h3 h4 h5 h6 h7]
  exact ⟨rfl, rfl, rfl⟩

/-- Witness for C3: a 12345-byte body with no content-length header is
written whole, reported as totalBytes 12345, with zero progress events. -/
theorem c3_degraded_buffering_witness :
    (download_video ⟨200, some [⟨some "t", some [("Fast Download", "u")]⟩]⟩
        ⟨200, none, 12345, [], false⟩).outcome = .success "t" 12345 ∧
    (download_video ⟨200, some [⟨some "t", some [("Fast Download", "u")]⟩]⟩
        ⟨200, none, 12345, [], false⟩).file = .written 12345 ∧
    (download_video ⟨200, some [⟨some "t", some [("Fast Download", "u")]⟩]⟩
        ⟨200, none, 12345, [], false⟩).events = [] :=
  c3_degraded_buffering _ _ ⟨some "t", some [("Fast Download", "u")]⟩ []
    [("Fast Download", "u")] "u" "t" rfl rfl rfl (by decide) rfl rfl rfl

/-- C4: a payload whose first item lacks the `"Fast Download"` resolution
(or lacks `title`) raises during the resolution phase (lines 107-111),
before `open(video_path, 'wb')` at line 115, so the run ends in a
resolution error and no destination file is ever created. -/
theorem c4_resolution_failure (api : ApiResponse) (video : VideoResponse)
    (item : ApiItem) (rest : List ApiItem)
    (h1 : api.statusCode = 200) (h2 : api.response = some (item :: rest))
    (h : (∃ res, item.resolutions = some res ∧ fastDownloadLookup res = none) ∨
          item.title = none) :
    (download_video api video).outcome = .resolutionError ∧
      (download_video api video).file = .absent := by
  have hrun : download_video api video = resolutionFailure := by
    rcases h with ⟨res, h3, h4⟩ | h5
    · simp [download_video, h1, h2, h3, h4]
    · rcases hr : item.resolutions with _ | res
      · simp [download_video, h1, h2, hr]
      · rcases hl : fastDownloadLookup res with _ | l
        · simp [download_video, h1, h2, hr, hl]
        · simp [download_video, h1, h2, hr, hl, h5]
  rw [hrun]
  exact ⟨rfl, rfl⟩

/-- Witness for C4: a payload with a title but an empty resolutions object
ends in a resolution error with no file on disk. -/
theorem c4_resolution_failure_witness :
    (download_video ⟨200, some [⟨some "t", some []⟩]⟩
        ⟨200, some 10, 0, [], false⟩).outcome = .resolutionError ∧
    (download_video ⟨200, some [⟨some "t", some []⟩]⟩
        ⟨200, some 10, 0, [], false⟩).file = .absent :=
  c4_resolution_failure _ _ ⟨some "t", some []⟩ [] rfl rfl (Or.inl ⟨[], rfl, rfl⟩)

/-- C2: a progress event is attempted exactly when the current percentage
has advanced by at least 7 points over the last-notified watermark
(line 141); when the event is delivered, the watermark is set to the
current percentage itself, not the 7-point boundary (line 154); and for
a monotonic stream of 100 equal chunks with every delivery succeeding,
the emitted percentages are exactly 7, 14, ..., 98 — one per successive
7-point boundary, never twice for the same boundary. -/
theorem c2_cadence :
    (∀ (totalLength : ℕ) (st : LoopState) (c : Chunk),
        (chunkEvent totalLength st c).isSome ↔
          7 ≤ percentageOf totalLength (st.downloadedLength + c.size) -
                st.lastPercentageUpdate) ∧
    (∀ (totalLength : ℕ) (st : LoopState) (c : Chunk) (e : ProgressEvent),
        chunkEvent totalLength st c = some e → e.delivered = true →
          (stepChunk totalLength st c).lastPercentageUpdate =
            percentageOf totalLength (st.downloadedLength + c.size)) ∧
    ((runChunks 100 initState (List.replicate 100 ⟨1, true, 1⟩)).events.map
        ProgressEvent.percentage = [7, 14, 21, 28, 35, 42, 49, 56, 63, 70, 77, 84, 91, 98]) := by
  refine ⟨chunkEvent_isSome_iff, ?_, ?_⟩
  · intro totalLength st c e he hd
    rw [stepChunk_watermark_of_delivered he hd]
    exact (chunkEvent_eq_some he).1
  · norm_num [List.replicate, runChunks, stepChunk, chunkEvent, percentageOf,
      computeSpeed, initState]

/-- Witness for C2: from a fresh loop state, a 7-byte chunk out of 100
crosses the 7% threshold and the watermark becomes the exact current
percentage. -/
theorem c2_cadence_witness :
    (stepChunk 100 initState ⟨7, true, 1⟩).lastPercentageUpdate =
      percentageOf 100 (initState.downloadedLength + 7) :=
  c2_cadence.2.1 100 initState ⟨7, true, 1⟩ ⟨7, 7, true⟩
    (by norm_num [chunkEvent, initState, percentageOf, computeSpeed]) rfl

/-- C5: within one transfer, the percentage computed at each chunk
(line 137) is monotonically non-decreasing, and so is the sequence of
percentages carried by the attempted (hence emitted) progress events. -/
theorem c5_percent_monotone (totalLength : ℕ) (chunks : List Chunk) :
    List.Chain' (· ≤ ·) (computedPercents totalLength chunks) ∧
    List.Chain' (· ≤ ·)
      ((runChunks totalLength initState chunks).events.map ProgressEvent.percentage) := by
  refine ⟨computedPercents_chain totalLength chunks, ?_⟩
  apply runChunks_events_chain
  · simp [initState]
  · intro e he
    simp [initState] at he

/-- C6: a mid-stream network error (lines 132, 161-164) ends the run in a
transfer error: no successful result is returned and the partial bytes
written so far remain on disk — the function never deletes the file. -/
theorem c6_midstream_failure (api : ApiResponse) (video : VideoResponse)
    (item : ApiItem) (rest : List ApiItem) (res : List (String × String))
    (link title : String) (N : ℕ)
    (h1 : api.statusCode = 200) (h2 : api.response = some (item :: rest))
    (h3 : item.resolutions = some res) (h4 : fastDownloadLookup res = some link)
    (h5 : item.title = some title) (h6 : video.statusCode = 200)
    (h7 : video.contentLength = some N) (h8 : video.midStreamError = true) :
    (download_video api video).outcome = .transferError ∧
      (download_video api video).file = .written ((video.chunks.map Chunk.size).sum) ∧
      ∀ (t : String) (n : ℕ), (download_video api video).outcome ≠ .success t n := by
  rw [download_video_stream api video item rest res link title N h1 h2 h3 h4 h5 h6 h7, h8]
  simp [runChunks_downloaded, initState]

/-- Witness for C6: after 5 of 10 declared bytes the stream fails; the
run ends in a transfer error with the 5 partial bytes still on disk. -/
theorem c6_midstream_failure_witness :
    (download_video ⟨200, some [⟨some "t", some [("Fast Download", "u")]⟩]⟩
        ⟨200, some 10, 0, [⟨5, true, 1⟩], true⟩).outcome = .transferError ∧
    (download_video ⟨200, some [⟨some "t", some [("Fast Download", "u")]⟩]⟩
        ⟨200, some 10, 0, [⟨5, true, 1⟩], true⟩).file = .written 5 := by
  have h := c6_midstream_failure
    ⟨200, some [⟨some "t", some [("Fast Download", "u")]⟩]⟩
    ⟨200, some 10, 0, [⟨5, true, 1⟩], true⟩
    ⟨some "t", some [("Fast Download", "u")]⟩ [] [("Fast Download", "u")] "u" "t" 10
    rfl rfl rfl (by decide) rfl rfl rfl rfl
  exact ⟨h.1, by simpa using h.2.1⟩

/-- C7: a failed progress delivery is swallowed (lines 155-156): the loop
still consumes every chunk, and a transfer whose deliveries fail in any
pattern — the delivery flags are unconstrained below — still completes
with a successful result and the full bytes on disk. -/
theorem c7_delivery_failure_harmless :
    (∀ (totalLength : ℕ) (st : LoopState) (c : Chunk),
        (stepChunk totalLength st c).downloadedLength = st.downloadedLength + c.size) ∧
    (∀ (api : ApiResponse) (video : VideoResponse) (item : ApiItem) (rest : List ApiItem)
        (res : List (String × String)) (link title : String) (N : ℕ),
        api.statusCode = 200 → api.response = some (item :: rest) →
        item.resolutions = some res → fastDownloadLookup res = some link →
        item.title = some title → video.statusCode = 200 →
        video.contentLength = some N → video.midStreamError = false →
          (download_video api video).outcome = .success title N ∧
          (download_video api video).file = .written ((video.chunks.map Chunk.size).sum)) := by
  refine ⟨stepChunk_downloaded, ?_⟩
  intro api video item rest res link title N h1 h2 h3 h4 h5 h6 h7 h8
  rw [download_video_stream api video item rest res link title N h1 h2 h3 h4 h5 h6 h7, h8]
  simp [runChunks_downloaded, initState]

/-- Witness for C7: the first progress delivery fails mid-transfer, yet
the run completes successfully with all 10 bytes written. -/
theorem c7_delivery_failure_harmless_witness :
    (download_video ⟨200, some [⟨some "t", some [("Fast Download", "u")]⟩]⟩
        ⟨200, some 10, 0, [⟨5, false, 1⟩, ⟨5, true, 2⟩], false⟩).outcome = .success "t" 10 ∧
    (download_video ⟨200, some [⟨some "t", some [("Fast Download", "u")]⟩]⟩
        ⟨200, some 10, 0, [⟨5, false, 1⟩, ⟨5, true, 2⟩], false⟩).file = .written 10 := by
  have h := c7_delivery_failure_harmless.2
    ⟨200, some [⟨some "t", some [("Fast Download", "u")]⟩]⟩
    ⟨200, some 10, 0, [⟨5, false, 1⟩, ⟨5, true, 2⟩], false⟩
    ⟨some "t", some [("Fast Download", "u")]⟩ [] [("Fast Download", "u")] "u" "t" 10
    rfl rfl rfl (by decide) rfl rfl rfl rfl
  exact ⟨h.1, by simpa using h.2⟩

/-- C8, counterexample: on a failed resolution the function itself edits
the status message with an error text (the `bot.edit_message_text` call in
the `except` handler, line 168) before re-raising — so "performs no
end-user notification itself" is false. -/
theorem c8_counterexample :
    (download_video ⟨500, none⟩ ⟨200, some 10, 0, [], false⟩).outcome = .resolutionError ∧
    (download_video ⟨500, none⟩ ⟨200, some 10, 0, [], false⟩).userNotifiedOnError = true := by
  norm_num [download_video, resolutionFailure]

/-- C8, amended: on every failure the function surfaces the error to its
caller by re-raising, but it first performs an end-user notification
itself, editing the status message with the error text; equivalently, a
run edits the status message with an error exactly when it fails. -/
theorem c8_error_notification (api : ApiResponse) (video : VideoResponse) :
    ((download_video api video).outcome = .resolutionError ∨
      (download_video api video).outcome = .transferError) ↔
    (download_video api video).userNotifiedOnError = true := by
  unfold download_video
  repeat' split
  all_goals simp [resolutionFailure]

/-- C9: the throughput computation (line 138) is guarded: when the
elapsed time is 0 the reported speed is 0, and for positive elapsed time
it is bytesDone divided by elapsed time; the function is total, so the
computation never faults. -/
theorem c9_throughput_guard (downloadedLength : ℕ) (elapsedTime : ℚ) :
    (elapsedTime = 0 → computeSpeed downloadedLength elapsedTime = 0) ∧
    (0 ≤ elapsedTime → elapsedTime ≠ 0 →
      computeSpeed downloadedLength elapsedTime = downloadedLength / elapsedTime) := by
  constructor
  · intro h
    simp [computeSpeed, h]
  · intro h0 hne
    have hpos : 0 < elapsedTime := lt_of_le_of_ne h0 (Ne.symm hne)
    simp [computeSpeed, hpos]

/-- Witness for C9: at elapsed time 0 the reported speed is 0; at elapsed
time 2 it is the quotient. -/
theorem c9_throughput_guard_witness :
    computeSpeed 5 0 = 0 ∧ computeSpeed 6 2 = 6 / 2 :=
  ⟨(c9_throughput_guard 5 0).1 rfl,
    (c9_throughput_guard 6 2).2 (by norm_num) (by norm_num)⟩

/-- C10: the watermark is advanced only by a successfully delivered
notification: a chunk whose delivery fails leaves
`last_percentage_update` unchanged (the assignment at line 154 is
skipped), the very next chunk attempts delivery again, and at every
point of the run the watermark equals the percentage of the most recent
successfully delivered event, or 0 if none. -/
theorem c10_watermark_tracks_delivery :
    (∀ (totalLength : ℕ) (st : LoopState) (c : Chunk), c.deliveryOk = false →
        (stepChunk totalLength st c).lastPercentageUpdate = st.lastPercentageUpdate) ∧
    (∀ (totalLength : ℕ) (st : LoopState) (c c' : Chunk), c.deliveryOk = false →
        (chunkEvent totalLength st c).isSome →
        (chunkEvent totalLength (stepChunk totalLength st c) c').isSome) ∧
    (∀ (totalLength : ℕ) (chunks : List Chunk),
        (runChunks totalLength initState chunks).lastPercentageUpdate =
          lastDeliveredPercent (runChunks totalLength initState chunks).events) := by
  refine ⟨stepChunk_watermark_of_failed, ?_, ?_⟩
  · intro totalLength st c c' hfail hsome
    rw [chunkEvent_isSome_iff] at hsome ⊢
    rw [stepChunk_watermark_of_failed totalLength st c hfail, stepChunk_downloaded]
    have hmono : percentageOf totalLength (st.downloadedLength + c.size) ≤
        percentageOf totalLength (st.downloadedLength + c.size + c'.size) :=
      percentageOf_mono totalLength (Nat.le_add_right _ _)
    linarith
  · intro totalLength chunks
    exact runChunks_watermark_eq totalLength chunks initState rfl

/-- Witness for C10: a 9-byte chunk out of 100 crosses the threshold but
its delivery fails; the watermark stays at its initial value. -/
theorem c10_watermark_tracks_delivery_witness :
    (stepChunk 100 initState ⟨9, false, 1⟩).lastPercentageUpdate =
      initState.lastPercentageUpdate :=
  c10_watermark_tracks_delivery.1 100 initState ⟨9, false, 1⟩ rfl

end Terabox
